import Mathlib

/-
Verification of the `Optional` combinator library in src/src/main.rs.

The Rust source defines a trait `Optional<T>` with a single primitive
`fold`, implemented for `Option<T>`, and eight free functions built on it:
`get_or_else`, `is_some`, `is_none`, `map`, `and_then`, `filter`,
`or_else`, `xor`.  We shallow-embed each function over Lean's `Option`,
translating the bodies directly from the source.  Rust evaluates function
arguments strictly, so `or_else`'s `item.fold(default(), |v| Some(v))`
computes `default()` exactly once before folding, on both branches; the
source comments on this itself ("default will be evaluated even when the
value is Some which may not be desired").

Two instrumentations accompany the plain embedding:
 - counting variants (`foldCount`, `or_elseCount`) that additionally
   return how many times the caller-supplied function is invoked, for the
   claims about when callbacks run;
 - `Except`-monad variants (`foldE`, `mapE`, ...) in which the
   caller-supplied functions may fail, for the claim that the combinators
   themselves never fail.
-/

namespace RustOptional

/-- Translation of the `fold` implementation for `Option<T>`
(src/src/main.rs lines 13-23): apply `f` to the contained value if
`Some`, otherwise return the default. -/
def fold {T U : Type} (x : Option T) (default : U) (f : T → U) : U :=
  match x with
  | some v => f v
  | none => default

/-- The same `fold`, instrumented: the second component counts how many
times `f` is invoked during evaluation (the `Some` branch calls it once,
the `None` branch not at all). -/
def foldCount {T U : Type} (x : Option T) (default : U) (f : T → U) : U × Nat :=
  match x with
  | some v => (f v, 1)
  | none => (default, 0)

/-- Translation of `get_or_else` (src/src/main.rs lines 26-32):
`item.fold(_default, |val| val)`. -/
def get_or_else {U : Type} (item : Option U) (default : U) : U :=
  fold item default (fun val => val)

/-- Translation of `is_some` (src/src/main.rs lines 35-40):
`item.fold(false, |_| true)`. -/
def is_some {U : Type} (item : Option U) : Bool :=
  fold item false (fun _ => true)

/-- Translation of `is_none` (src/src/main.rs lines 43-48):
`item.fold(true, |_| false)`. -/
def is_none {U : Type} (item : Option U) : Bool :=
  fold item true (fun _ => false)

/-- Translation of `map` (src/src/main.rs lines 51-56):
`item.fold(None, |v| Some(f(v)))`. -/
def map {U V : Type} (item : Option U) (f : U → V) : Option V :=
  fold item none (fun v => some (f v))

/-- Translation of `and_then` (src/src/main.rs lines 59-64):
`item.fold(None, |v| f(v))`. -/
def and_then {U V : Type} (item : Option U) (f : U → Option V) : Option V :=
  fold item none (fun v => f v)

/-- Translation of `filter` (src/src/main.rs lines 67-73):
`item.fold(None, |v| if predicate(&v) { Some(v) } else { None })`.
The Rust predicate borrows the value; in the pure embedding it simply
receives it, and the retained value is returned as-is. -/
def filter {U : Type} (item : Option U) (predicate : U → Bool) : Option U :=
  fold item none (fun v => if predicate v then some v else none)

/-- Translation of `or_else` (src/src/main.rs lines 76-83):
`item.fold(default(), |v| Some(v))`.  Rust is strict, so `default()` is
evaluated once, before the fold, on every call. -/
def or_else {U : Type} (item : Option U) (default : Unit → Option U) : Option U :=
  fold item (default ()) (fun v => some v)

/-- The same `or_else`, instrumented: the second component counts how many
times the fallback `default` is invoked.  The source evaluates
`default()` exactly once, unconditionally, before folding. -/
def or_elseCount {U : Type} (item : Option U) (default : Unit → Option U) :
    Option U × Nat :=
  let d := default ()
  (fold item d (fun v => some v), 1)

/-- Translation of `xor` (src/src/main.rs lines 86-93): record whether
`other` has a value (via the standard non-consuming `is_some`), then
`item.fold(other, move |v| if other_has_value { None } else { Some(v) })`. -/
def xor {U : Type} (item : Option U) (other : Option U) : Option U :=
  let other_has_value := other.isSome
  fold item other (fun v => if other_has_value then none else some v)

/-- Whether an `Except` computation succeeded. -/
def exceptOk {E A : Type} : Except E A → Bool
  | .ok _ => true
  | .error _ => false

/-- `fold` in the `Except` monad: the caller-supplied `f` may fail.
The combinator itself introduces no failure: the `None` branch is `ok`. -/
def foldE {E T U : Type} (x : Option T) (default : U) (f : T → Except E U) :
    Except E U :=
  match x with
  | some v => f v
  | none => .ok default

/-- `get_or_else` takes no caller-supplied function, so its monadic
translation is pure. -/
def get_or_elseE (E : Type) {U : Type} (item : Option U) (default : U) :
    Except E U :=
  .ok (get_or_else item default)

/-- `is_some` takes no caller-supplied function, so its monadic
translation is pure. -/
def is_someE (E : Type) {U : Type} (item : Option U) : Except E Bool :=
  .ok (is_some item)

/-- `is_none` takes no caller-supplied function, so its monadic
translation is pure. -/
def is_noneE (E : Type) {U : Type} (item : Option U) : Except E Bool :=
  .ok (is_none item)

/-- `map` in the `Except` monad: the mapped function may fail. -/
def mapE {E U V : Type} (item : Option U) (f : U → Except E V) :
    Except E (Option V) :=
  foldE item none (fun v => do
    let r ← f v
    pure (some r))

/-- `and_then` in the `Except` monad: the chained function may fail. -/
def and_thenE {E U V : Type} (item : Option U) (f : U → Except E (Option V)) :
    Except E (Option V) :=
  foldE item none (fun v => f v)

/-- `filter` in the `Except` monad: the predicate may fail. -/
def filterE {E U : Type} (item : Option U) (predicate : U → Except E Bool) :
    Except E (Option U) :=
  foldE item none (fun v => do
    let b ← predicate v
    pure (if b then some v else none))

/-- `or_else` in the `Except` monad: faithful to the source's strict
evaluation order, `default ()` runs first (so a failing fallback fails the
whole call even on the `Some` branch), then the fold. -/
def or_elseE {E U : Type} (item : Option U) (default : Unit → Except E (Option U)) :
    Except E (Option U) := do
  let d ← default ()
  pure (fold item d (fun v => some v))

/-- `xor` takes no caller-supplied function, so its monadic translation is
pure. -/
def xorE (E : Type) {U : Type} (item : Option U) (other : Option U) :
    Except E (Option U) :=
  .ok (xor item other)

end RustOptional

namespace RustOptional

/-- Claim C1: for every default `d` and function `f`, `fold` returns
`f v` on `Present v` and `d` on `Absent`; the instrumented fold shows `f`
is invoked once on the `Present` branch and not at all on the `Absent`
branch. -/
theorem fold_spec {T U : Type} (v : T) (d : U) (f : T → U) :
    fold (some v) d f = f v ∧
    fold (none : Option T) d f = d ∧
    foldCount (some v) d f = (f v, 1) ∧
    foldCount (none : Option T) d f = (d, 0) :=
  ⟨rfl, rfl, rfl, rfl⟩

/-- Claim C2 counterexample: `or_else` invokes its fallback even when the
first argument is `Present`: on `Present 1` with fallback `fun _ => none`,
the instrumented `or_else` records one fallback invocation, not zero. -/
theorem or_else_invokes_fallback_on_present :
    (or_elseCount (some 1) (fun _ => (none : Option Nat))).2 ≠ 0 := by
  decide

/-- Claim C2 amended: `or_else` evaluates its fallback exactly once on
every call, including when the first argument is `Present`; nevertheless
the result on `Present v` is `Present v` independently of the fallback,
so any two fallbacks give equal results there. -/
theorem or_else_result_independent_of_fallback {U : Type} (v : U)
    (f g : Unit → Option U) (x : Option U) :
    (or_elseCount x f).2 = 1 ∧
    (or_elseCount (some v) f).1 = some v ∧
    (or_elseCount (some v) f).1 = (or_elseCount (some v) g).1 :=
  ⟨rfl, rfl, rfl⟩

/-- Claim C3: `xor` satisfies the four-case truth table: the unique
`Present` operand wins, and two `Present`s or two `Absent`s give
`Absent`. -/
theorem xor_truth_table {U : Type} (a b : U) :
    xor (some a) (none : Option U) = some a ∧
    xor (none : Option U) (some b) = some b ∧
    xor (some a) (some b) = none ∧
    xor (none : Option U) (none : Option U) = none :=
  ⟨rfl, rfl, rfl, rfl⟩

/-- Claim C4: `or_else` keeps a `Present` value and falls back to the
result of the fallback on `Absent`. -/
theorem or_else_spec {U : Type} (v : U) (f : Unit → Option U) :
    or_else (some v) f = some v ∧
    or_else (none : Option U) f = f () :=
  ⟨rfl, rfl⟩

/-- Claim C5: `filter` keeps `Present v` unchanged exactly when the
predicate accepts `v`, drops it to `Absent` otherwise, and maps `Absent`
to `Absent`. -/
theorem filter_spec {U : Type} (v : U) (p : U → Bool) :
    filter (some v) p = (if p v then some v else none) ∧
    filter (none : Option U) p = none :=
  ⟨rfl, rfl⟩

/-- Claim C6: `map` sends `Absent` to `Absent` and `Present v` to
`Present (f v)`. -/
theorem map_spec {U V : Type} (v : U) (f : U → V) :
    map (none : Option U) f = (none : Option V) ∧
    map (some v) f = some (f v) :=
  ⟨rfl, rfl⟩

/-- Claim C7: `and_then` applies the optional-returning function on
`Present v` and propagates `Absent`. -/
theorem and_then_spec {U V : Type} (v : U) (f : U → Option V) :
    and_then (some v) f = f v ∧
    and_then (none : Option U) f = (none : Option V) :=
  ⟨rfl, rfl⟩

/-- Claim C8: `get_or_else` extracts the contained value of a `Present`
and returns the default on `Absent`. -/
theorem get_or_else_spec {U : Type} (v d : U) :
    get_or_else (some v) d = v ∧
    get_or_else (none : Option U) d = d :=
  ⟨rfl, rfl⟩

/-- Claim C9: `is_some` is the boolean negation of `is_none` on every
optional; `is_some` is true exactly on `Present` and `is_none` is true
exactly on `Absent`. -/
theorem is_some_not_is_none {U : Type} (x : Option U) (v : U) :
    is_some x = !is_none x ∧
    is_some (some v) = true ∧
    is_some (none : Option U) = false ∧
    is_none (none : Option U) = true ∧
    is_none (some v) = false :=
  ⟨by cases x <;> rfl, rfl, rfl, rfl, rfl⟩

/-- Claim C10: every combinator, run in the `Except` monad where the
caller-supplied functions may fail, succeeds on every optional input as
long as those functions themselves succeed: absence is the only
non-success outcome the combinators produce. -/
theorem combinators_never_fail {T U V E : Type} (x y : Option T) (d : T)
    (f : T → Except E U) (g : T → Except E (Option V))
    (p : T → Except E Bool) (dfn : Unit → Except E (Option T))
    (hf : ∀ v, exceptOk (f v) = true)
    (hg : ∀ v, exceptOk (g v) = true)
    (hp : ∀ v, exceptOk (p v) = true)
    (hd : exceptOk (dfn ()) = true) :
    exceptOk (get_or_elseE E x d) = true ∧
    exceptOk (is_someE E x) = true ∧
    exceptOk (is_noneE E x) = true ∧
    exceptOk (mapE x f) = true ∧
    exceptOk (and_thenE x g) = true ∧
    exceptOk (filterE x p) = true ∧
    exceptOk (or_elseE x dfn) = true ∧
    exceptOk (xorE E x y) = true := by
  refine ⟨rfl, rfl, rfl, ?_, ?_, ?_, ?_, rfl⟩
  · cases x with
    | none => rfl
    | some v =>
      have h := hf v
      simp only [mapE, foldE]
      cases hv : f v with
      | ok r => rfl
      | error e => rw [hv] at h; exact absurd h (by simp [exceptOk])
  · cases x with
    | none => rfl
    | some v =>
      have h := hg v
      simp only [and_thenE, foldE]
      cases hv : g v with
      | ok r => rfl
      | error e => rw [hv] at h; exact absurd h (by simp [exceptOk])
  · cases x with
    | none => rfl
    | some v =>
      have h := hp v
      simp only [filterE, foldE]
      cases hv : p v with
      | ok r => rfl
      | error e => rw [hv] at h; exact absurd h (by simp [exceptOk])
  · simp only [or_elseE]
    cases hv : dfn () with
    | ok r => rfl
    | error e => rw [hv] at hd; exact absurd hd (by simp [exceptOk])

/-- Witness for C10 at concrete inputs: all eight combinators succeed on
`some 1` with succeeding supplied functions. -/
theorem combinators_never_fail_witness :
    exceptOk (get_or_elseE Unit (some 1) 0) = true ∧
    exceptOk (is_someE Unit (some 1 : Option Nat)) = true ∧
    exceptOk (is_noneE Unit (some 1 : Option Nat)) = true ∧
    exceptOk (mapE (some 1) (fun v => (.ok (v + 1) : Except Unit Nat))) = true ∧
    exceptOk (and_thenE (some 1) (fun v => (.ok (some v) : Except Unit (Option Nat)))) = true ∧
    exceptOk (filterE (some 1) (fun v => (.ok (decide (0 < v)) : Except Unit Bool))) = true ∧
    exceptOk (or_elseE (some 1) (fun _ => (.ok none : Except Unit (Option Nat)))) = true ∧
    exceptOk (xorE Unit (some 1) (none : Option Nat)) = true :=
  combinators_never_fail (some 1) (none : Option Nat) 0
    (fun v => .ok (v + 1)) (fun v => .ok (some v))
    (fun v => .ok (decide (0 < v))) (fun _ => .ok none)
    (fun _ => rfl) (fun _ => rfl) (fun _ => rfl) rfl

end RustOptional
